import Mathlib

/-! # Shallow embedding of the ur_rtde I/O, receive and script-client layers

This file embeds, in Lean, the parts of the ur_rtde fork relevant to the
claims under review: the input-recipe declarations, value validation and
command construction of RTDEIOInterface (rtde_io_interface.cpp), the receive
loop and reconnect logic of RTDEReceiveInterface (rtde_receive_interface.cpp),
and the script upload logic of ScriptClient (script_client.cpp).  Collaborator
operations whose implementation lives outside these files (the raw RTDE
transport) appear as explicit parameters of the embedded functions, so every
theorem quantifies over their behaviour. -/

namespace UrRtde

/-- Constant CB3_MAJOR_VERSION from rtde_control_interface.h (value 3):
controllers with a larger major version are e-Series. -/
def CB3_MAJOR_VERSION : Nat := 3

/-- Frequency selection shared by both interfaces (rtde_io_interface.cpp
constructor and reconnect, rtde_receive_interface.cpp constructor and
reconnect): frequency starts at 125 and is set to 500 when the controller
major version exceeds CB3_MAJOR_VERSION. -/
def selectFrequency (major_version : Nat) : Nat :=
  if major_version > CB3_MAJOR_VERSION then 500 else 125

namespace RTDEIOInterface

/-- Frequency passed to sendOutputSetup in the RTDEIOInterface constructor
(rtde_io_interface.cpp lines 16-19). -/
def ctorFrequency (major_version : Nat) : Nat :=
  selectFrequency major_version

/-- Frequency passed to sendOutputSetup in RTDEIOInterface::reconnect
(rtde_io_interface.cpp lines 74-77). -/
def reconnectFrequency (major_version : Nat) : Nat :=
  selectFrequency major_version

/-- Input recipes 1-5 declared by the RTDEIOInterface constructor, in the
order they are passed to sendInputSetup (rtde_io_interface.cpp lines 27-49).
Note that recipe 5 names input_int_register_2, not input_int_register_20. -/
def ctorInputRecipes : List (List String) :=
  [["input_int_register_20"],
   ["input_int_register_20", "standard_digital_output_mask",
    "standard_digital_output"],
   ["input_int_register_20", "tool_digital_output_mask",
    "tool_digital_output"],
   ["input_int_register_20", "speed_slider_mask", "speed_slider_fraction"],
   ["input_int_register_2", "standard_analog_output_mask",
    "standard_analog_output_type", "standard_analog_output_0",
    "standard_analog_output_1"]]

/-- Input recipes 1-5 declared by RTDEIOInterface::reconnect, in the order
they are passed to sendInputSetup (rtde_io_interface.cpp lines 85-107). -/
def reconnectInputRecipes : List (List String) :=
  [["input_int_register_20"],
   ["input_int_register_20", "standard_digital_output_mask",
    "standard_digital_output"],
   ["input_int_register_20", "tool_digital_output_mask",
    "tool_digital_output"],
   ["input_int_register_20", "speed_slider_mask", "speed_slider_fraction"],
   ["input_int_register_20", "standard_analog_output_mask",
    "standard_analog_output_type", "standard_analog_output_0",
    "standard_analog_output_1"]]

end RTDEIOInterface

namespace RTDEReceiveInterface

/-- Frequency passed to setupRecipes in the RTDEReceiveInterface constructor
(rtde_receive_interface.cpp lines 23-26). -/
def ctorFrequency (major_version : Nat) : Nat :=
  selectFrequency major_version

/-- Frequency passed to setupRecipes in RTDEReceiveInterface::reconnect
(rtde_receive_interface.cpp lines 158-161). -/
def reconnectFrequency (major_version : Nat) : Nat :=
  selectFrequency major_version

end RTDEReceiveInterface

namespace ScriptClient

/-- Observable outcome of a ScriptClient call: the bytes written to the
socket (none when nothing was written) and the boolean return value. -/
structure SendOutcome where
  written : Option (List Char)
  result : Bool
deriving Repr, DecidableEq

/-- Embedding of ScriptClient::sendScriptCommand (script_client.cpp lines
64-77): when connected and the command string is nonempty, the string is
written to the socket and true is returned; otherwise nothing is written and
false is returned. -/
def sendScriptCommand (connected : Bool) (cmd_str : List Char) : SendOutcome :=
  if connected = true ∧ cmd_str ≠ [] then ⟨some cmd_str, true⟩
  else ⟨none, false⟩

/-- Uncaught C++ exceptions that can escape ScriptClient::sendScript:
std::out_of_range raised by std::string::at when a marker sits within the
last three characters of the text, and std::invalid_argument raised by
std::stoi on a version character that is neither a space nor a digit. -/
inductive ScriptExn where
  | atOutOfRange
  | stoiInvalid
deriving Repr, DecidableEq

/-- Result of the substitution while-loop of ScriptClient::sendScript
(script_client.cpp lines 133-165): the processed text, the early
return-false taken when a version character is a space, or an uncaught
exception. -/
inductive PassResult where
  | done (cs : List Char)
  | abortFalse
  | exn (e : ScriptExn)
deriving Repr, DecidableEq

/-- Position of the first newline at index n or later, mirroring
ur_script.find of the newline starting from n in the delete branch. -/
def findNewlineFrom (cs : List Char) (n : Nat) : Option Nat :=
  match (cs.drop n).findIdx? (fun c => c = '\n') with
  | some k => some (n + k)
  | none => none

/-- One iteration of the substitution loop acting on the marker found at
index n (script_client.cpp lines 137-162).  The characters at offsets 2 and
3 after the dollar sign are fetched with std::string::at (out-of-range
throws); a space in either position triggers the return-false branch; a
non-digit makes std::stoi throw; otherwise the line is kept (the four marker
characters are overwritten with spaces) when the live version is
lexicographically at least the required one, and the text from the marker
through the first newline at or after it (to the end of the text when there
is none, since std::string::erase clamps) is deleted otherwise. -/
def substStep (major minor : Nat) (cs : List Char) (n : Nat) : PassResult :=
  match cs.get? (n + 2), cs.get? (n + 3) with
  | some c2, some c3 =>
    if c2 = ' ' ∨ c3 = ' ' then .abortFalse
    else if c2.isDigit ∧ c3.isDigit then
      let needMajor := c2.toNat - '0'.toNat
      let needMinor := c3.toNat - '0'.toNat
      if major > needMajor ∨ (major = needMajor ∧ minor ≥ needMinor) then
        .done (cs.take n ++ [' ', ' ', ' ', ' '] ++ cs.drop (n + 4))
      else
        .done (match findNewlineFrom cs n with
               | some m => cs.take n ++ cs.drop (m + 1)
               | none => cs.take n)
    else .exn .stoiInvalid
  | _, _ => .exn .atOutOfRange

/-- Fuelled form of the substitution while-loop: each iteration finds the
leftmost dollar sign and applies substStep to it; the loop ends when no
dollar sign remains.  Each non-aborting iteration removes at least one
dollar sign, so a fuel of length + 1 is never exhausted. -/
def substPassFuel (major minor : Nat) : Nat → List Char → PassResult
  | 0, cs => .done cs
  | fuel + 1, cs =>
    match cs.findIdx? (fun c => c = '$') with
    | none => .done cs
    | some n =>
      match substStep major minor cs n with
      | .done cs1 => substPassFuel major minor fuel cs1
      | r => r

/-- The substitution pass of ScriptClient::sendScript run to completion. -/
def runSubstitution (major minor : Nat) (cs : List Char) : PassResult :=
  substPassFuel major minor (cs.length + 1) cs

/-- Observable outcome of ScriptClient::sendScript: the bytes written to the
socket, and either the boolean return value or the uncaught exception. -/
structure ScriptSendOutcome where
  written : Option (List Char)
  result : Except ScriptExn Bool
deriving Repr

instance : DecidableEq (Except ScriptExn Bool) := fun a b =>
  match a, b with
  | .ok x, .ok y => decidable_of_iff (x = y) (by simp)
  | .error x, .error y => decidable_of_iff (x = y) (by simp)
  | .ok _, .error _ => .isFalse (fun h => Except.noConfusion h)
  | .error _, .ok _ => .isFalse (fun h => Except.noConfusion h)

deriving instance DecidableEq for ScriptSendOutcome

/-- Embedding of ScriptClient::sendScript (script_client.cpp lines 111-178)
from the point where the script text cs has been loaded: run the
substitution pass, then write the processed text and return true when
connected and the text is nonempty, else return false without writing. -/
def sendScript (connected : Bool) (major minor : Nat) (cs : List Char) :
    ScriptSendOutcome :=
  match runSubstitution major minor cs with
  | .abortFalse => ⟨none, .ok false⟩
  | .exn e => ⟨none, .error e⟩
  | .done cs1 =>
    if connected = true ∧ cs1 ≠ [] then ⟨some cs1, .ok true⟩
    else ⟨none, .ok false⟩

end ScriptClient

namespace RTDEIOInterface

/-- Session-level events observable from RTDEIOInterface::sendCommand. -/
inductive Ev where
  | send
  | disconnect
  | reconnect
deriving Repr, DecidableEq

/-- Observable outcome of RTDEIOInterface::sendCommand: the event trace, an
indicator of whether an exception escapes to the caller, and the returned
boolean (none when control falls off the end of the function, whose return
value is then unspecified). -/
structure CommandOutcome where
  events : List Ev
  propagates : Bool
  result : Option Bool
deriving Repr, DecidableEq

/-- Embedding of RTDEIOInterface::sendCommand (rtde_io_interface.cpp lines
233-258).  The oracle lists the outcome of each successive rtde_->send
attempt (true = succeeds, false = throws).  On success the function returns
true.  On a throw, the exception is caught inside the function: the session
is disconnected, then, being disconnected, the function reconnects and calls
itself recursively with the same command; the recursive result is discarded
and control falls off the end.  An empty oracle models a retry sequence
truncated before completion. -/
def sendCommand : List Bool → CommandOutcome
  | [] => ⟨[], false, none⟩
  | true :: _ => ⟨[.send], false, some true⟩
  | false :: rest =>
    let r := sendCommand rest
    ⟨.send :: .disconnect :: .reconnect :: r.events, r.propagates, none⟩

/-- Robot command codes used by the I/O facade (subset of
RTDE::RobotCommand::Type). -/
inductive CommandType where
  | NO_CMD
  | SET_STD_DIGITAL_OUT
  | SET_TOOL_DIGITAL_OUT
  | SET_SPEED_SLIDER
  | SET_STD_ANALOG_OUT
deriving Repr, DecidableEq

/-- Fields of RTDE::RobotCommand relevant to the I/O facade.  Mask and value
fields are uint8, represented as naturals below 256. -/
structure RobotCommand where
  cmdType : CommandType := .NO_CMD
  recipe_id : Nat := 0
  std_digital_out_mask : Nat := 0
  std_digital_out : Nat := 0
deriving Repr, DecidableEq

/-- Embedding of RTDEIOInterface::setStandardDigitalOut (rtde_io_interface.cpp
lines 139-157): the single RobotCommand handed to sendCommand.  The mask is
static_cast of pow(2.0, output_id) to uint8_t, which for output_id below 8
is exactly 2 ^ output_id; the reduction mod 256 records the uint8 range. -/
def setStandardDigitalOut (output_id : Nat) (signal_level : Bool) :
    RobotCommand :=
  { cmdType := .SET_STD_DIGITAL_OUT
    recipe_id := 2
    std_digital_out_mask := 2 ^ output_id % 256
    std_digital_out := if signal_level then 2 ^ output_id % 256 else 0 }

/-- Value of a C++ double as far as verifyValueIsWithin inspects it: either
NaN or an ordered finite value (modelled as a rational). -/
inductive CDouble where
  | nan
  | val (q : ℚ)
deriving DecidableEq

/-- Exceptions thrown by RTDEIOInterface::verifyValueIsWithin. -/
inductive VerifyErr where
  | invalid_argument
  | range_error
deriving Repr, DecidableEq

/-- Predicate std::isnan. -/
def cisnan : CDouble → Bool
  | .nan => true
  | .val _ => false

/-- Comparison std::isgreaterequal: false whenever either side is NaN. -/
def cisgreaterequal : CDouble → CDouble → Bool
  | .val a, .val b => decide (a ≥ b)
  | _, _ => false

/-- Comparison std::islessequal: false whenever either side is NaN. -/
def cislessequal : CDouble → CDouble → Bool
  | .val a, .val b => decide (a ≤ b)
  | _, _ => false

/-- Embedding of RTDEIOInterface::verifyValueIsWithin (rtde_io_interface.cpp
lines 121-137): NaN bounds raise invalid_argument, then a NaN value raises
invalid_argument, then a value outside the closed interval raises
range_error; otherwise the function returns normally. -/
def verifyValueIsWithin (value lo hi : CDouble) : Except VerifyErr Unit :=
  if cisnan lo || cisnan hi then .error .invalid_argument
  else if cisnan value then .error .invalid_argument
  else if !(cisgreaterequal value lo && cislessequal value hi) then
    .error .range_error
  else .ok ()

end RTDEIOInterface

namespace RTDEReceiveInterface

/-- Events observable from RTDEReceiveInterface::receiveCallback. -/
inductive REv where
  | receive
  | publishError
  | disconnect
deriving Repr, DecidableEq

/-- Final observation of a run of the receive loop: the event trace, the
stop_thread flag, and whether the RTDE session is still connected. -/
structure LoopOutcome where
  events : List REv
  stop_thread : Bool
  connected : Bool
deriving Repr, DecidableEq

/-- Embedding of RTDEReceiveInterface::receiveCallback
(rtde_receive_interface.cpp lines 130-147).  The schedule lists, for each
iteration of the while loop, the value of stop_thread observed at the loop
condition (true when another thread has set the cooperative stop flag) and
whether rtde_->receiveData succeeds (true) or throws (false).  Observing the
stop flag exits the loop without receiving.  A throwing receive prints the
error, disconnects when still connected, sets stop_thread, and the next loop
condition exits.  An exhausted schedule models a loop that is still
running. -/
def receiveCallback (connected : Bool) :
    List (Bool × Bool) → LoopOutcome
  | [] => ⟨[], false, connected⟩
  | (stopObserved, recvOk) :: rest =>
    if stopObserved then ⟨[], true, connected⟩
    else if recvOk then
      let r := receiveCallback connected rest
      ⟨.receive :: r.events, r.stop_thread, r.connected⟩
    else
      ⟨.receive :: .publishError ::
        (if connected then [.disconnect] else []), true, false⟩

end RTDEReceiveInterface

/-- Connection-level state threaded through the reconnect sequences. -/
structure SessState where
  connected : Bool
  stop_thread : Bool
deriving Repr, DecidableEq

/-- Behaviour of the underlying RTDE transport object (rtde.cpp, outside the
sources under review), supplied as a parameter: each operation transforms
the session state arbitrarily, and getControllerVersion reads the reported
major version.  Every theorem about the reconnect paths quantifies over this
behaviour. -/
structure RTDEOps where
  connect : SessState → SessState
  negotiateProtocolVersion : SessState → SessState
  getControllerVersion : SessState → Nat
  sendOutputSetup : Nat → SessState → SessState
  sendInputSetup : SessState → SessState
  sendStart : SessState → SessState

/-- Embedding of RTDEIOInterface::reconnect (rtde_io_interface.cpp lines
67-119): connect, negotiate, read the controller version, select the
frequency, set up the output recipe and the five input recipes, start
streaming, sleep, then return the literal true regardless of the resulting
session state. -/
def RTDEIOInterface.reconnect (ops : RTDEOps) (s : SessState) :
    SessState × Bool :=
  let s1 := ops.connect s
  let s2 := ops.negotiateProtocolVersion s1
  let freq := selectFrequency (ops.getControllerVersion s2)
  let s3 := ops.sendOutputSetup freq s2
  let s4 := ops.sendInputSetup s3
  let s5 := ops.sendInputSetup s4
  let s6 := ops.sendInputSetup s5
  let s7 := ops.sendInputSetup s6
  let s8 := ops.sendInputSetup s7
  let s9 := ops.sendStart s8
  (s9, true)

/-- Embedding of RTDEReceiveInterface::reconnect (rtde_receive_interface.cpp
lines 149-178): connect, negotiate, read the controller version, select the
frequency, set up the output recipe, start streaming, clear stop_thread,
restart the receive thread, then return the live connection status
isConnected() of the resulting session state. -/
def RTDEReceiveInterface.reconnect (ops : RTDEOps) (s : SessState) :
    SessState × Bool :=
  let s1 := ops.connect s
  let s2 := ops.negotiateProtocolVersion s1
  let freq := selectFrequency (ops.getControllerVersion s2)
  let s3 := ops.sendOutputSetup freq s2
  let s4 := ops.sendStart s3
  let s5 : SessState := { s4 with stop_thread := false }
  (s5, s5.connected)

/-- Transport behaviour in which every operation leaves the session state
unchanged and the controller reports major version 5: it models a reconnect
attempt whose connect step fails to restore the connection. -/
def inertOps : RTDEOps :=
  { connect := id
    negotiateProtocolVersion := id
    getControllerVersion := fun _ => 5
    sendOutputSetup := fun _ s => s
    sendInputSetup := id
    sendStart := id }

end UrRtde

namespace UrRtde

/-- Claim C1 (code_bug evidence): evaluated at the failing input, the fifth
input recipe declared by the RTDEIOInterface constructor carries
input_int_register_2 and not input_int_register_20 as its command-slot
field, while all five recipes of the reconnect path (and recipes 1 to 4 of
the constructor) do carry input_int_register_20; the claim that all five
recipes in each of the two setup sequences include input_int_register_20
therefore fails exactly at the constructor's recipe 5. -/
theorem ctor_recipe5_command_slot :
    RTDEIOInterface.ctorInputRecipes[4]? =
      some ["input_int_register_2", "standard_analog_output_mask",
            "standard_analog_output_type", "standard_analog_output_0",
            "standard_analog_output_1"] ∧
    ("input_int_register_20" ∉
      ["input_int_register_2", "standard_analog_output_mask",
       "standard_analog_output_type", "standard_analog_output_0",
       "standard_analog_output_1"]) ∧
    (∀ r ∈ RTDEIOInterface.reconnectInputRecipes,
      "input_int_register_20" ∈ r) ∧
    ¬ (∀ r ∈ RTDEIOInterface.ctorInputRecipes,
      "input_int_register_20" ∈ r) := by
  decide

/-- Claim C2 (counterexample): with a transport oracle on which the first
rtde_->send throws and the second succeeds, RTDEIOInterface::sendCommand
catches the error (nothing propagates to the caller), disconnects,
reconnects on its own, and sends the command a second time — contradicting
the claim that the error surfaces to the caller, that the command is not
retried implicitly, and that reconnection is left to the caller. -/
theorem sendCommand_retries_counterexample :
    (RTDEIOInterface.sendCommand [false, true]).events =
      [.send, .disconnect, .reconnect, .send] ∧
    (RTDEIOInterface.sendCommand [false, true]).propagates = false ∧
    (RTDEIOInterface.sendCommand [false, true]).events.count .send = 2 := by
  decide

/-- Claim C2 (amended): when rtde_->send throws inside sendCommand, the
session is disconnected, but the exception is caught rather than surfacing
to the caller, and the function reconnects and retries the command itself,
recursively and without a retry bound; no exception from a send ever
propagates out of sendCommand. -/
theorem sendCommand_error_caught_and_retried (rest : List Bool) :
    (RTDEIOInterface.sendCommand (false :: rest)).events =
      .send :: .disconnect :: .reconnect ::
        (RTDEIOInterface.sendCommand rest).events ∧
    (∀ outcomes : List Bool,
      (RTDEIOInterface.sendCommand outcomes).propagates = false) := by
  have hp : ∀ outcomes : List Bool,
      (RTDEIOInterface.sendCommand outcomes).propagates = false := by
    intro outcomes
    induction outcomes with
    | nil => rfl
    | cons b rest ih => cases b <;> simp [RTDEIOInterface.sendCommand, ih]
  exact ⟨by simp [RTDEIOInterface.sendCommand], hp⟩

/-- Claim C4: for an output id at most 7, setStandardDigitalOut builds the
single command it hands to sendCommand with recipe id 2, mask 2 ^ id, and
value 2 ^ id when the level is true and 0 when it is false. -/
theorem setStandardDigitalOut_frame (output_id : Nat) (level : Bool)
    (h : output_id ≤ 7) :
    (RTDEIOInterface.setStandardDigitalOut output_id level).recipe_id = 2 ∧
    (RTDEIOInterface.setStandardDigitalOut output_id level).cmdType =
      .SET_STD_DIGITAL_OUT ∧
    (RTDEIOInterface.setStandardDigitalOut output_id level).std_digital_out_mask
      = 2 ^ output_id ∧
    (RTDEIOInterface.setStandardDigitalOut output_id level).std_digital_out =
      (if level then 2 ^ output_id else 0) := by
  have hlt : 2 ^ output_id < 256 :=
    lt_of_le_of_lt (Nat.pow_le_pow_right (by norm_num) h) (by norm_num)
  refine ⟨rfl, rfl, ?_, ?_⟩
  · simp [RTDEIOInterface.setStandardDigitalOut, Nat.mod_eq_of_lt hlt]
  · cases level <;>
      simp [RTDEIOInterface.setStandardDigitalOut, Nat.mod_eq_of_lt hlt]

/-- Witness for setStandardDigitalOut_frame at output id 3 with level true:
mask and value both equal 8, matching the spec scenario. -/
theorem setStandardDigitalOut_frame_witness :
    (RTDEIOInterface.setStandardDigitalOut 3 true).recipe_id = 2 ∧
    (RTDEIOInterface.setStandardDigitalOut 3 true).std_digital_out_mask =
      2 ^ 3 ∧
    (RTDEIOInterface.setStandardDigitalOut 3 true).std_digital_out =
      (if true then 2 ^ 3 else 0) :=
  ⟨(setStandardDigitalOut_frame 3 true (by norm_num)).1,
   (setStandardDigitalOut_frame 3 true (by norm_num)).2.2.1,
   (setStandardDigitalOut_frame 3 true (by norm_num)).2.2.2⟩

/-- Claim C6: in the constructor and reconnect paths of both interfaces the
frequency handed to the output setup is 125 exactly when the controller
major version is at most 3, and 500 exactly when it exceeds 3. -/
theorem frequency_125_iff_cb_series (major_version : Nat) :
    (RTDEIOInterface.ctorFrequency major_version = 125 ↔ major_version ≤ 3) ∧
    (RTDEIOInterface.reconnectFrequency major_version = 125 ↔
      major_version ≤ 3) ∧
    (RTDEReceiveInterface.ctorFrequency major_version = 125 ↔
      major_version ≤ 3) ∧
    (RTDEReceiveInterface.reconnectFrequency major_version = 125 ↔
      major_version ≤ 3) ∧
    (RTDEIOInterface.ctorFrequency major_version = 500 ↔ 3 < major_version) ∧
    (RTDEIOInterface.reconnectFrequency major_version = 500 ↔
      3 < major_version) ∧
    (RTDEReceiveInterface.ctorFrequency major_version = 500 ↔
      3 < major_version) ∧
    (RTDEReceiveInterface.reconnectFrequency major_version = 500 ↔
      3 < major_version) := by
  have h : (selectFrequency major_version = 125 ↔ major_version ≤ 3) ∧
      (selectFrequency major_version = 500 ↔ 3 < major_version) := by
    by_cases hm : major_version ≤ 3
    all_goals simp [selectFrequency, CB3_MAJOR_VERSION, hm]
    all_goals omega
  exact ⟨h.1, h.1, h.1, h.1, h.2, h.2, h.2, h.2⟩

/-- Claim C8: an iteration of the receive loop that observes the cooperative
stop flag exits at once, performing no receive whatever the remaining
schedule holds; an iteration whose receive succeeds re-checks the flag
before the next receive; and an iteration whose receive throws publishes the
error, disconnects the session when it was connected (so that is_connected
becomes false), sets the stop flag and exits, with exactly the one receive
that failed and none after it. -/
theorem receiveCallback_stop_and_error (connected : Bool)
    (sched : List (Bool × Bool)) (b : Bool) :
    (RTDEReceiveInterface.receiveCallback connected
      ((true, b) :: sched)).events = [] ∧
    (RTDEReceiveInterface.receiveCallback connected
      ((false, true) :: sched)).events =
      .receive :: (RTDEReceiveInterface.receiveCallback connected
        sched).events ∧
    (RTDEReceiveInterface.receiveCallback connected
      ((false, false) :: sched)).events =
      .receive :: .publishError ::
        (if connected then [.disconnect] else []) ∧
    (RTDEReceiveInterface.receiveCallback connected
      ((false, false) :: sched)).connected = false ∧
    (RTDEReceiveInterface.receiveCallback connected
      ((false, false) :: sched)).stop_thread = true ∧
    (RTDEReceiveInterface.receiveCallback connected
      ((false, false) :: sched)).events.count .receive = 1 := by
  refine ⟨rfl, rfl, rfl, rfl, rfl, ?_⟩
  cases connected <;> rfl

/-- Claim C9: for every transport behaviour and every starting state,
RTDEIOInterface::reconnect returns true, whereas
RTDEReceiveInterface::reconnect returns the connection status of the
resulting session state; with the inert transport that fails to restore the
connection, the former still returns true while the latter returns false. -/
theorem reconnect_return_values (ops : RTDEOps) (s : SessState) :
    (RTDEIOInterface.reconnect ops s).2 = true ∧
    (RTDEReceiveInterface.reconnect ops s).2 =
      (RTDEReceiveInterface.reconnect ops s).1.connected ∧
    (RTDEIOInterface.reconnect inertOps ⟨false, false⟩).2 = true ∧
    (RTDEReceiveInterface.reconnect inertOps ⟨false, false⟩).2 = false :=
  ⟨rfl, rfl, rfl, rfl⟩

/-- Claim C10: sendScriptCommand writes nothing and returns false when the
client is disconnected or the command string is empty, and otherwise writes
exactly the command string and returns true. -/
theorem sendScriptCommand_spec (connected : Bool) (cmd_str : List Char) :
    (connected = false ∨ cmd_str = [] →
      ScriptClient.sendScriptCommand connected cmd_str = ⟨none, false⟩) ∧
    (connected = true → cmd_str ≠ [] →
      ScriptClient.sendScriptCommand connected cmd_str =
        ⟨some cmd_str, true⟩) := by
  constructor
  · rintro (rfl | rfl) <;> simp [ScriptClient.sendScriptCommand]
  · rintro rfl hne
    simp [ScriptClient.sendScriptCommand, hne]

/-- Witness for sendScriptCommand_spec: a disconnected client rejects a
nonempty command, and a connected client writes it and returns true. -/
theorem sendScriptCommand_spec_witness :
    ScriptClient.sendScriptCommand false [' '] = ⟨none, false⟩ ∧
    ScriptClient.sendScriptCommand true [' '] = ⟨some [' '], true⟩ :=
  ⟨(sendScriptCommand_spec false [' ']).1 (Or.inl rfl),
   (sendScriptCommand_spec true [' ']).2 rfl (by simp)⟩

end UrRtde

namespace UrRtde

/-- Claim C5: with non-NaN bounds, verifyValueIsWithin returns normally
exactly when the value is a non-NaN number inside the closed interval; a NaN
value raises invalid_argument and a value outside the interval raises
range_error (either throw leaves the calling command before any frame is
built or sent). -/
theorem verifyValueIsWithin_spec (value : RTDEIOInterface.CDouble)
    (a b : ℚ) :
    (RTDEIOInterface.verifyValueIsWithin value (.val a) (.val b) = .ok () ↔
      ∃ q : ℚ, value = .val q ∧ a ≤ q ∧ q ≤ b) ∧
    (RTDEIOInterface.verifyValueIsWithin .nan (.val a) (.val b) =
      .error .invalid_argument) ∧
    (∀ q : ℚ, value = .val q → ¬(a ≤ q ∧ q ≤ b) →
      RTDEIOInterface.verifyValueIsWithin value (.val a) (.val b) =
        .error .range_error) := by
  refine ⟨?_, rfl, ?_⟩
  · cases value with
    | nan =>
      simp [RTDEIOInterface.verifyValueIsWithin, RTDEIOInterface.cisnan]
    | val q =>
      by_cases hq : a ≤ q ∧ q ≤ b
      · simp [RTDEIOInterface.verifyValueIsWithin, RTDEIOInterface.cisnan,
          RTDEIOInterface.cisgreaterequal, RTDEIOInterface.cislessequal,
          ge_iff_le, hq.1, hq.2]
      · rcases not_and_or.mp hq with h | h <;>
          simp [RTDEIOInterface.verifyValueIsWithin, RTDEIOInterface.cisnan,
            RTDEIOInterface.cisgreaterequal, RTDEIOInterface.cislessequal,
            ge_iff_le, h]
  · rintro q rfl hq
    rcases not_and_or.mp hq with h | h <;>
      simp [RTDEIOInterface.verifyValueIsWithin, RTDEIOInterface.cisnan,
        RTDEIOInterface.cisgreaterequal, RTDEIOInterface.cislessequal,
        ge_iff_le, h]

/-- Witness for verifyValueIsWithin_spec: 1 inside the interval 0 to 2
passes, 3 outside it raises range_error. -/
theorem verifyValueIsWithin_spec_witness :
    RTDEIOInterface.verifyValueIsWithin (.val 1) (.val 0) (.val 2) =
      .ok () ∧
    RTDEIOInterface.verifyValueIsWithin (.val 3) (.val 0) (.val 2) =
      .error .range_error :=
  ⟨(verifyValueIsWithin_spec (.val 1) 0 2).1.mpr
    ⟨1, rfl, by norm_num, by norm_num⟩,
   (verifyValueIsWithin_spec (.val 3) 0 2).2.2 3 rfl (by norm_num)⟩

end UrRtde

namespace UrRtde

/-- Claim C7 (counterexample): on the text consisting of the marker "$ ab"
and a newline, whose version characters a and b are not parseable digits,
sendScript does not return false: std::stoi throws std::invalid_argument and
the exception escapes the function (nothing is written, but the claimed
return-false contract is violated). -/
theorem sendScript_unparseable_marker_counterexample :
    ScriptClient.sendScript true 5 3 ("$ ab\n".toList) =
      ⟨none, .error .stoiInvalid⟩ ∧
    (ScriptClient.sendScript true 5 3 ("$ ab\n".toList)).result ≠
      .ok false := by
  decide

/-- Claim C7 (amended): when the first marker of the text cannot be parsed,
sendScript always aborts the upload with nothing written to the socket, but
the way it aborts depends on why parsing fails: a version character that is
a space makes it return false; a text too short to hold both version
characters makes std::string::at throw std::out_of_range; and a version
character that is neither a space nor a digit makes std::stoi throw
std::invalid_argument — in the two latter cases the exception escapes
instead of a false return. -/
theorem sendScript_bad_marker_aborts (connected : Bool)
    (major minor : Nat) (cs : List Char) (n : Nat)
    (hn : cs.findIdx? (fun c => c = '$') = some n) :
    ((cs.get? (n + 2) = none ∨ cs.get? (n + 3) = none) →
      ScriptClient.sendScript connected major minor cs =
        ⟨none, .error .atOutOfRange⟩) ∧
    (∀ c2 c3 : Char, cs.get? (n + 2) = some c2 →
      cs.get? (n + 3) = some c3 → (c2 = ' ' ∨ c3 = ' ') →
      ScriptClient.sendScript connected major minor cs =
        ⟨none, .ok false⟩) ∧
    (∀ c2 c3 : Char, cs.get? (n + 2) = some c2 →
      cs.get? (n + 3) = some c3 → c2 ≠ ' ' → c3 ≠ ' ' →
      ¬(c2.isDigit = true ∧ c3.isDigit = true) →
      ScriptClient.sendScript connected major minor cs =
        ⟨none, .error .stoiInvalid⟩) := by
  refine ⟨?_, ?_, ?_⟩
  · intro hnone
    have hstep : ScriptClient.substStep major minor cs n =
        .exn .atOutOfRange := by
      rcases hnone with h | h
      · simp only [ScriptClient.substStep, h]
      · cases hh : cs.get? (n + 2) <;>
          simp only [ScriptClient.substStep, hh, h]
    unfold ScriptClient.sendScript ScriptClient.runSubstitution
    simp only [ScriptClient.substPassFuel, hn, hstep]
  · intro c2 c3 h2 h3 hsp
    have hstep : ScriptClient.substStep major minor cs n = .abortFalse := by
      simp only [ScriptClient.substStep, h2, h3]
      rw [if_pos hsp]
    unfold ScriptClient.sendScript ScriptClient.runSubstitution
    simp only [ScriptClient.substPassFuel, hn, hstep]
  · intro c2 c3 h2 h3 hs2 hs3 hdig
    have hstep : ScriptClient.substStep major minor cs n =
        .exn .stoiInvalid := by
      simp only [ScriptClient.substStep, h2, h3]
      rw [if_neg (not_or.mpr ⟨hs2, hs3⟩), if_neg hdig]
    unfold ScriptClient.sendScript ScriptClient.runSubstitution
    simp only [ScriptClient.substPassFuel, hn, hstep]

/-- Witness for sendScript_bad_marker_aborts: the lone-dollar text makes at
throw, a space version character yields the false return, and letter
version characters make stoi throw. -/
theorem sendScript_bad_marker_aborts_witness :
    ScriptClient.sendScript true 5 0 ['$'] =
      ⟨none, .error .atOutOfRange⟩ ∧
    ScriptClient.sendScript true 5 0 ['$', 'x', ' ', '1', '\n'] =
      ⟨none, .ok false⟩ ∧
    ScriptClient.sendScript true 5 0 ['$', ' ', 'a', 'b', '\n'] =
      ⟨none, .error .stoiInvalid⟩ :=
  ⟨(sendScript_bad_marker_aborts true 5 0 ['$'] 0 (by decide)).1
    (Or.inl rfl),
   (sendScript_bad_marker_aborts true 5 0 ['$', 'x', ' ', '1', '\n'] 0
    (by decide)).2.1 ' ' '1' rfl rfl (Or.inl rfl),
   (sendScript_bad_marker_aborts true 5 0 ['$', ' ', 'a', 'b', '\n'] 0
    (by decide)).2.2 'a' 'b' rfl rfl (by decide) (by decide) (by decide)⟩

end UrRtde
